import Mathlib

/-!
Verification development for the LinkedIn post automation repository.

The core under study is the three-step LinkedIn publication protocol in
src/linkedin_post_automation.py:

  step 1  LinkedInAPIService.initialize_image_upload   (lines 159-199)
  step 2  LinkedInAPIService.upload_image_data         (lines 201-227)
  step 3  LinkedInAPIService.create_post_with_image    (lines 229-279)

orchestrated by LinkedInPostAutomation.publish_to_linkedin (lines 407-422),
with startup credential loading in get_env_variable_st (lines 31-40) and
LinkedInPostAutomation.__init__ (lines 283-308), and temporary file cleanup
in cleanup_temp_image (lines 455-467).

The embedding is a shallow one: each HTTP exchange is resolved against a
fixed script of server responses (structure Responses), the local disk is an
association list from paths to byte lists (FS), and every network request the
code would send is recorded as an Event in an emitted trace.  Python
exceptions become an explicit error type with one constructor per distinct
raise site.  Python truthiness tests on optional strings (None or the empty
string count as absent) are modelled by pyFalsy.
-/

set_option autoImplicit false

deriving instance DecidableEq for Except

namespace LinkedinAutomation

/-- Body of the step 1 response after JSON parsing: the fields
data.value.uploadUrl and data.value.image read at lines 181-182.
A missing "value" object is modelled by both fields being none. -/
structure InitBody where
  uploadUrl : Option String
  image : Option String
  deriving DecidableEq, Repr

/-- Server response to the step 1 POST (initializeUpload). -/
structure InitResponse where
  status : Nat
  body : InitBody
  text : String
  deriving DecidableEq, Repr

/-- Server response to the step 2 PUT of the binary. -/
structure PutResponse where
  status : Nat
  text : String
  deriving DecidableEq, Repr

/-- Server response to the step 3 POST (/rest/posts), with the two optional
identifier headers read at line 264. -/
structure PostResponse where
  status : Nat
  text : String
  xLinkedinId : Option String
  xRestliId : Option String
  deriving DecidableEq, Repr

/-- The script of responses the network returns during one publication
attempt: one response per step. -/
structure Responses where
  initResp : InitResponse
  putResp : PutResponse
  postResp : PostResponse
  deriving DecidableEq, Repr

/-- The local filesystem: an association list from paths to file contents
(byte lists).  A path absent from the list does not exist on disk;
a path mapped to [] is an empty file. -/
abbrev FS := List (String × List Nat)

/-- Look a path up on disk. -/
def fsLookup (fs : FS) (path : String) : Option (List Nat) :=
  (fs.find? (fun p => p.1 == path)).map (fun p => p.2)

/-- The state of a LinkedInAPIService instance (lines 49-56): the fields set
in its constructor that the three protocol steps read.  hasConsole records
whether console_instance was a real console or None; LinkedInPostAutomation
passes None (line 300). -/
structure Service where
  access_token : String
  user_urn : String
  api_version : String
  hasConsole : Bool
  deriving DecidableEq, Repr

/-- Python truthiness of an optional string: None and the empty string are
falsy, so tests like `if not upload_url` (line 184) fire on both. -/
def pyFalsy : Option String → Bool
  | none => true
  | some s => s.isEmpty

/-- Python `a or b` on optional strings, as on line 264: a falsy left operand
gives the right operand. -/
def pyOr (a b : Option String) : Option String :=
  match a with
  | none => b
  | some s => if s.isEmpty then b else some s

/-- requests.Response.raise_for_status raises HTTPError exactly for
status codes in [400, 600). -/
def isErrorStatus (status : Nat) : Bool :=
  decide (400 ≤ status) && decide (status < 600)

/-- One constructor per distinct exception the publication code can
propagate.  Each records the data the corresponding Python message string
interpolates.

The spec taxonomy maps onto the raise sites as follows:
UploadInitiationFailed is the HTTPError re-raise at line 196;
MalformedUploadResponse is the raise at line 187 (re-wrapped at line 199);
BinaryUploadFailed is the HTTPError re-raise at line 224;
fileReadFailed is the OSError from open() at line 205 re-wrapped at line 227;
PostCreationFailed is the HTTPError re-raise at line 276;
postCreationOther is the raise at line 271 re-wrapped at line 279, reachable
for a non-201 status outside [400, 600) when a console is present;
attributeErrorNoneConsole is the AttributeError raised by the expression
self.console.print at line 278 when the console is None. -/
inductive PubError where
  | uploadInitiationFailed (status : Nat) (body : String)
  | malformedUploadResponse (dataDump : String)
  | binaryUploadFailed (status : Nat) (body : String)
  | fileReadFailed (path : String)
  | postCreationFailed (status : Nat) (body : String)
  | postCreationOther (status : Nat) (body : String)
  | attributeErrorNoneConsole
  deriving DecidableEq, Repr

/-- The URL of the step 1 request (line 162). -/
def initUploadUrl : String :=
  "https://api.linkedin.com/rest/images?action=initializeUpload"

/-- The URL of the step 3 request (line 232). -/
def postsUrl : String := "https://api.linkedin.com/rest/posts"

/-- The JSON body built at lines 239-254 for the step 3 request.  The nested
JSON object is flattened field by field: feedDistribution stands for
distribution.feedDistribution and mediaId for content.media.id. -/
structure PostPayload where
  author : String
  commentary : String
  visibility : String
  feedDistribution : String
  mediaId : String
  lifecycleState : String
  isReshareDisabledByAuthor : Bool
  deriving DecidableEq, Repr

/-- Construction of the step 3 payload from lines 239-254. -/
def mkPostPayload (user_urn text_content image_urn : String) : PostPayload :=
  { author := user_urn
    commentary := text_content
    visibility := "PUBLIC"
    feedDistribution := "MAIN_FEED"
    mediaId := image_urn
    lifecycleState := "PUBLISHED"
    isReshareDisabledByAuthor := false }

/-- A network request the code sends, recorded in the emitted trace.
initRequest is the step 1 POST with the owner from the
initializeUploadRequest body (lines 169-176); putRequest is the step 2 PUT
with its target URL, content type and transmitted bytes (lines 210-215);
postRequest is the step 3 POST with its URL and payload (lines 239-260). -/
inductive Event where
  | initRequest (url : String) (owner : String)
  | putRequest (uploadUrl : String) (contentType : String) (data : List Nat)
  | postRequest (url : String) (payload : PostPayload)
  deriving DecidableEq, Repr

/-- Which protocol step an event belongs to. -/
def stepKind : Event → Nat
  | .initRequest _ _ => 1
  | .putRequest _ _ _ => 2
  | .postRequest _ _ => 3

/-- Which protocol step raised an error. -/
def errStep : PubError → Nat
  | .uploadInitiationFailed _ _ => 1
  | .malformedUploadResponse _ => 1
  | .binaryUploadFailed _ _ => 2
  | .fileReadFailed _ => 2
  | .postCreationFailed _ _ => 3
  | .postCreationOther _ _ => 3
  | .attributeErrorNoneConsole => 3

/-- Discriminator: is this error the HTTP-level step 1 failure (the spec
name UploadInitiationFailed), as opposed to the protocol-violation failure
for a body missing uploadUrl or image? -/
def isUploadInitiationHTTP : PubError → Bool
  | .uploadInitiationFailed _ _ => true
  | _ => false

/-- Discriminator: is this error the HTTP-level step 3 failure (the spec
name PostCreationFailed) that carries the original status and body? -/
def isPostCreationFailedErr : PubError → Bool
  | .postCreationFailed _ _ => true
  | _ => false

/-- Step 1, LinkedInAPIService.initialize_image_upload (lines 159-199).
The POST is always sent (line 176); raise_for_status (line 178) turns a
[400, 600) status into the HTTPError handler at line 192; otherwise the
parsed body fields are checked with Python truthiness at line 184 and a
missing or empty uploadUrl or image aborts via the raise at line 187;
otherwise the pair (upload_url, image_urn) is returned (line 191). -/
def initialize_image_upload (svc : Service) (rs : Responses) :
    List Event × Except PubError (String × String) :=
  let r := rs.initResp
  ([Event.initRequest initUploadUrl svc.user_urn],
    if isErrorStatus r.status then
      Except.error (PubError.uploadInitiationFailed r.status r.text)
    else if pyFalsy r.body.uploadUrl || pyFalsy r.body.image then
      Except.error (PubError.malformedUploadResponse r.text)
    else
      Except.ok (r.body.uploadUrl.getD "", r.body.image.getD ""))

/-- Step 2, LinkedInAPIService.upload_image_data (lines 201-227).
The file is read first (lines 205-206); a missing file raises before any
request is sent, re-wrapped by the generic handler at line 227.  Otherwise
the PUT is sent with content type application/octet-stream (lines 210-215)
and raise_for_status (line 217) turns a [400, 600) status into the HTTPError
handler at line 220; otherwise True is returned (line 219).  The filesystem
is threaded through and returned so that the frame property is expressible:
the source only reads, so the returned filesystem is the input one. -/
def upload_image_data (_svc : Service) (rs : Responses) (fs : FS)
    (upload_url image_path : String) :
    FS × List Event × Except PubError Bool :=
  match fsLookup fs image_path with
  | none => (fs, [], Except.error (PubError.fileReadFailed image_path))
  | some img_data =>
    let r := rs.putResp
    (fs, [Event.putRequest upload_url "application/octet-stream" img_data],
      if isErrorStatus r.status then
        Except.error (PubError.binaryUploadFailed r.status r.text)
      else
        Except.ok true)

/-- Step 3, LinkedInAPIService.create_post_with_image (lines 229-279).
The POST is always sent (line 260).  On status 201 the post id is read from
the x-linkedin-id header, falling back to x-restli-id via Python `or`
(line 264), and (True, post_id) is returned (line 266).  On any other status,
raise_for_status (line 269) sends [400, 600) statuses to the HTTPError
handler at line 272; a remaining status reaches the raise at line 271, which
the generic handler at line 277 catches — that handler calls
self.console.print (line 278), which raises AttributeError when the console
is None, and only re-raises the wrapped error when a console is present. -/
def create_post_with_image (svc : Service) (rs : Responses)
    (text_content image_urn : String) :
    List Event × Except PubError (Bool × Option String) :=
  let payload := mkPostPayload svc.user_urn text_content image_urn
  let r := rs.postResp
  ([Event.postRequest postsUrl payload],
    if r.status = 201 then
      Except.ok (true, pyOr r.xLinkedinId r.xRestliId)
    else if isErrorStatus r.status then
      Except.error (PubError.postCreationFailed r.status r.text)
    else if svc.hasConsole then
      Except.error (PubError.postCreationOther r.status r.text)
    else
      Except.error PubError.attributeErrorNoneConsole)

/-- LinkedInPostAutomation.publish_to_linkedin (lines 407-422): run step 1;
on success feed its upload_url into step 2 and its image_urn into step 3;
any exception propagates unchanged and aborts the remaining steps.  The
returned trace concatenates the requests actually sent, in order. -/
def publish_to_linkedin (svc : Service) (rs : Responses) (fs : FS)
    (text_content image_path : String) :
    FS × List Event × Except PubError (Bool × Option String) :=
  match initialize_image_upload svc rs with
  | (ev1, Except.error e) => (fs, ev1, Except.error e)
  | (ev1, Except.ok (upload_url, image_urn)) =>
    match upload_image_data svc rs fs upload_url image_path with
    | (fs2, ev2, Except.error e) => (fs2, ev1 ++ ev2, Except.error e)
    | (fs2, ev2, Except.ok _) =>
      match create_post_with_image svc rs text_content image_urn with
      | (ev3, res) => (fs2, ev1 ++ ev2 ++ ev3, res)

/-- LinkedInPostAutomation.cleanup_temp_image (lines 455-467): deletes the
file when it exists; included to show filesystem mutation is expressible in
this model.  Returns the new filesystem and the boolean result. -/
def cleanup_temp_image (fs : FS) (image_path : String) : FS × Bool :=
  match fsLookup fs image_path with
  | none => (fs, true)
  | some _ => (fs.filter (fun p => !(p.1 == image_path)), true)

/-! ### Startup credential loading -/

/-- The process environment: an association list from variable names to
values.  An unset variable is absent; a variable set to the empty string is
present with value "". -/
abbrev Env := List (String × String)

/-- os.getenv with no default: none when unset. -/
def envGet (env : Env) (name : String) : Option String :=
  (env.find? (fun p => p.1 == name)).map (fun p => p.2)

/-- os.getenv with a default (line 306): the default applies only when the
variable is unset, not when it is set to the empty string. -/
def envGetD (env : Env) (name default : String) : String :=
  match envGet env name with
  | none => default
  | some v => v

/-- get_env_variable_st (lines 31-40): raises ValueError when the variable is
unset or falsy (the empty string), otherwise returns its value. -/
def get_env_variable_st (env : Env) (var_name : String) : Except String String :=
  match envGet env var_name with
  | none =>
    Except.error ("Error: Environment variable " ++ var_name ++ " not found. "
      ++ "Please configure all required environment variables in the .env file.")
  | some value =>
    if value.isEmpty then
      Except.error ("Error: Environment variable " ++ var_name ++ " not found. "
        ++ "Please configure all required environment variables in the .env file.")
    else
      Except.ok value

/-- LinkedInPostAutomation.__init__ (lines 283-308): each required variable is
loaded with get_env_variable_st in source order, and the first missing one
aborts initialization; LINKEDIN_API_VERSION alone is loaded with os.getenv
and a default of "202504" (line 306), so its absence never aborts.  The
console_instance passed to LinkedInAPIService is None (line 300), recorded as
hasConsole := false.  On success the resulting LinkedInAPIService state is
returned. -/
def automationInit (env : Env) : Except String Service :=
  match get_env_variable_st env "OPENAI_API_KEY" with
  | Except.error e => Except.error e
  | Except.ok _openai_api_key =>
  match get_env_variable_st env "SEARCH_API_KEY" with
  | Except.error e => Except.error e
  | Except.ok _search_api_key =>
  match get_env_variable_st env "SEARCH_ENGINE_ID" with
  | Except.error e => Except.error e
  | Except.ok _search_engine_id =>
  match get_env_variable_st env "LINKEDIN_ACCESS_TOKEN" with
  | Except.error e => Except.error e
  | Except.ok linkedin_access_token =>
  match get_env_variable_st env "LINKEDIN_USER_URN" with
  | Except.error e => Except.error e
  | Except.ok linkedin_user_urn =>
  match get_env_variable_st env "NEWSAPI_KEY" with
  | Except.error e => Except.error e
  | Except.ok _newsapi_key =>
    Except.ok
      { access_token := linkedin_access_token
        user_urn := linkedin_user_urn
        api_version := envGetD env "LINKEDIN_API_VERSION" "202504"
        hasConsole := false }

/-! ### Concrete worlds used by witnesses and counterexamples -/

/-- A service state as LinkedInPostAutomation wires it (console None). -/
def svc0 : Service :=
  { access_token := "tok"
    user_urn := "urn:li:person:me"
    api_version := "202504"
    hasConsole := false }

/-- A fully successful response script: step 1 returns both fields, step 2
returns 201, step 3 returns 201 with an x-restli-id header. -/
def rsGood : Responses :=
  { initResp :=
      { status := 200
        body := { uploadUrl := some "https://up.example/1", image := some "urn:li:image:1" }
        text := "initbody" }
    putResp := { status := 201, text := "" }
    postResp :=
      { status := 201, text := "", xLinkedinId := none, xRestliId := some "urn:li:share:123" } }

/-- Like rsGood but step 1 answers 200 with a body missing uploadUrl. -/
def rsMalformed : Responses :=
  { rsGood with initResp :=
      { status := 200
        body := { uploadUrl := none, image := some "urn:li:image:1" }
        text := "malformedbody" } }

/-- Like rsGood but step 3 answers 200 (non-201, outside [400, 600)). -/
def rs200 : Responses :=
  { rsGood with postResp :=
      { status := 200, text := "ok-but-not-201", xLinkedinId := none, xRestliId := none } }

/-- Like rsGood but step 3 answers 201 with neither identifier header. -/
def rsNoId : Responses :=
  { rsGood with postResp :=
      { status := 201, text := "", xLinkedinId := none, xRestliId := none } }

/-- Like rsGood but step 2 answers 500. -/
def rsPutFail : Responses :=
  { rsGood with putResp := { status := 500, text := "server error" } }

/-- Like rsGood but step 1 answers 401. -/
def rsInitFail : Responses :=
  { rsGood with initResp :=
      { status := 401
        body := { uploadUrl := none, image := none }
        text := "unauthorized" } }

/-- A disk holding one three-byte image. -/
def fs0 : FS := [("img.png", [1, 2, 3])]

/-- A disk holding one empty image file. -/
def fsEmptyFile : FS := [("img.png", [])]

/-- An environment defining the six required variables and nothing else:
in particular LINKEDIN_API_VERSION is unset. -/
def env0 : Env :=
  [("OPENAI_API_KEY", "k1"), ("SEARCH_API_KEY", "k2"), ("SEARCH_ENGINE_ID", "k3"),
   ("LINKEDIN_ACCESS_TOKEN", "tok"), ("LINKEDIN_USER_URN", "urn:li:person:me"),
   ("NEWSAPI_KEY", "k4")]

/-- env0 with the LinkedIn access token removed. -/
def envNoToken : Env :=
  [("OPENAI_API_KEY", "k1"), ("SEARCH_API_KEY", "k2"), ("SEARCH_ENGINE_ID", "k3"),
   ("LINKEDIN_USER_URN", "urn:li:person:me"), ("NEWSAPI_KEY", "k4")]

/-! ### Helper lemmas -/

/-- A truthy optional string is some value, and getD recovers that value. -/
theorem pyFalsy_false_getD {o : Option String} (h : pyFalsy o = false) :
    o = some (o.getD "") := by
  cases o with
  | none => simp [pyFalsy] at h
  | some s => rfl

/-- A successful get_env_variable_st means the variable was set and truthy. -/
theorem get_env_ok_not_falsy {env : Env} {n v : String}
    (h : get_env_variable_st env n = Except.ok v) :
    pyFalsy (envGet env n) = false := by
  unfold get_env_variable_st at h
  cases ho : envGet env n with
  | none => rw [ho] at h; simp at h
  | some s =>
    rw [ho] at h
    by_cases hs : s.isEmpty
    · simp [hs] at h
    · simp [pyFalsy, hs]

/-- An optional string that is not falsy is some of its getD value. -/
theorem some_getD_of_not_falsy {o : Option String} (h : pyFalsy o = false) :
    some (o.getD "") = o := by
  cases o with
  | none => simp [pyFalsy] at h
  | some s => rfl

/-- Every error of step 1 is a step 1 error. -/
theorem initialize_error_step {svc : Service} {rs : Responses} {e : PubError}
    (h : (initialize_image_upload svc rs).2 = Except.error e) :
    errStep e = 1 := by
  by_cases h1 : isErrorStatus rs.initResp.status = true <;>
  by_cases h2 : (pyFalsy rs.initResp.body.uploadUrl
      || pyFalsy rs.initResp.body.image) = true <;>
  simp_all [initialize_image_upload, errStep]
  all_goals (rw [← h]; try rfl)

/-- Every error of step 2 is a step 2 error. -/
theorem upload_error_step {svc : Service} {rs : Responses} {fs : FS}
    {url path : String} {e : PubError}
    (h : (upload_image_data svc rs fs url path).2.2 = Except.error e) :
    errStep e = 2 := by
  rcases hfs : fsLookup fs path with _ | d <;>
  by_cases h4 : isErrorStatus rs.putResp.status = true <;>
  simp_all [upload_image_data, errStep]
  all_goals (rw [← h]; try rfl)

/-- Every error of step 3 is a step 3 error. -/
theorem create_post_error_step {svc : Service} {rs : Responses}
    {t u : String} {e : PubError}
    (h : (create_post_with_image svc rs t u).2 = Except.error e) :
    errStep e = 3 := by
  by_cases h5 : rs.postResp.status = 201 <;>
  by_cases h6 : isErrorStatus rs.postResp.status = true <;>
  by_cases h7 : svc.hasConsole = true <;>
  simp_all [create_post_with_image, errStep]
  all_goals (rw [← h]; try rfl)

/-- Exhaustive case analysis of publish_to_linkedin: it aborts at step 1
with the HTTP error, aborts at step 1 with the malformed-response error,
aborts reading the file before the step 2 PUT, aborts at step 2 with the
HTTP error, or sends all three requests and returns the step 3 result. -/
theorem publish_cases (svc : Service) (rs : Responses) (fs : FS)
    (t p : String) :
    publish_to_linkedin svc rs fs t p
        = (fs, [Event.initRequest initUploadUrl svc.user_urn],
           Except.error
             (PubError.uploadInitiationFailed rs.initResp.status rs.initResp.text)) ∨
    publish_to_linkedin svc rs fs t p
        = (fs, [Event.initRequest initUploadUrl svc.user_urn],
           Except.error (PubError.malformedUploadResponse rs.initResp.text)) ∨
    publish_to_linkedin svc rs fs t p
        = (fs, [Event.initRequest initUploadUrl svc.user_urn],
           Except.error (PubError.fileReadFailed p)) ∨
    publish_to_linkedin svc rs fs t p
        = (fs, [Event.initRequest initUploadUrl svc.user_urn,
                Event.putRequest (rs.initResp.body.uploadUrl.getD "")
                  "application/octet-stream" ((fsLookup fs p).getD [])],
           Except.error
             (PubError.binaryUploadFailed rs.putResp.status rs.putResp.text)) ∨
    publish_to_linkedin svc rs fs t p
        = (fs, [Event.initRequest initUploadUrl svc.user_urn,
                Event.putRequest (rs.initResp.body.uploadUrl.getD "")
                  "application/octet-stream" ((fsLookup fs p).getD []),
                Event.postRequest postsUrl
                  (mkPostPayload svc.user_urn t (rs.initResp.body.image.getD ""))],
           (create_post_with_image svc rs t (rs.initResp.body.image.getD "")).2) := by
  by_cases h1 : isErrorStatus rs.initResp.status = true <;>
  by_cases h2 : (pyFalsy rs.initResp.body.uploadUrl
      || pyFalsy rs.initResp.body.image) = true <;>
  rcases hfs : fsLookup fs p with _ | d <;>
  by_cases h4 : isErrorStatus rs.putResp.status = true <;>
  simp_all [publish_to_linkedin, initialize_image_upload, upload_image_data,
    create_post_with_image, mkPostPayload]

/-! ### Claim theorems -/

/-- Claim C1: publish_to_linkedin executes the three steps strictly in the
order initiate, upload, post: the emitted request trace is always a prefix
of [step 1, step 2, step 3]; a normal return means all three requests were
sent; a step 1 error leaves a trace with only the step 1 request (steps 2
and 3 are never invoked); a step 2 error leaves no step 3 request; a step 3
error means all three requests were sent; so publish either returns after
all three steps or propagates the first failure. -/
theorem publish_three_step_order (svc : Service) (rs : Responses) (fs : FS)
    (text_content image_path : String) :
    ((publish_to_linkedin svc rs fs text_content image_path).2.1.map stepKind = [1] ∨
     (publish_to_linkedin svc rs fs text_content image_path).2.1.map stepKind = [1, 2] ∨
     (publish_to_linkedin svc rs fs text_content image_path).2.1.map stepKind = [1, 2, 3]) ∧
    (∀ v, (publish_to_linkedin svc rs fs text_content image_path).2.2 = Except.ok v →
      (publish_to_linkedin svc rs fs text_content image_path).2.1.map stepKind = [1, 2, 3]) ∧
    (∀ e, (publish_to_linkedin svc rs fs text_content image_path).2.2 = Except.error e →
      (errStep e = 1 →
        (publish_to_linkedin svc rs fs text_content image_path).2.1.map stepKind = [1]) ∧
      (errStep e = 2 →
        (publish_to_linkedin svc rs fs text_content image_path).2.1.map stepKind = [1] ∨
        (publish_to_linkedin svc rs fs text_content image_path).2.1.map stepKind = [1, 2]) ∧
      (errStep e = 3 →
        (publish_to_linkedin svc rs fs text_content image_path).2.1.map stepKind = [1, 2, 3])) := by
  rcases publish_cases svc rs fs text_content image_path with hp | hp | hp | hp | hp
  · rw [hp]; simp [stepKind, errStep]
  · rw [hp]; simp [stepKind, errStep]
  · rw [hp]; simp [stepKind, errStep]
  · rw [hp]; simp [stepKind, errStep]
  · rw [hp]
    refine ⟨Or.inr (Or.inr (by simp [stepKind])),
      fun v _ => by simp [stepKind], fun e he => ?_⟩
    have h3 : errStep e = 3 :=
      @create_post_error_step svc rs text_content
        (rs.initResp.body.image.getD "") e he
    refine ⟨fun h1 => ?_, fun h2 => ?_, fun _ => by simp [stepKind]⟩
    · rw [h3] at h1; exact absurd h1 (by decide)
    · rw [h3] at h2; exact absurd h2 (by decide)

/-- Claim C1 witness: on the successful script all three requests are sent
in order. -/
theorem publish_three_step_order_witness :
    (publish_to_linkedin svc0 rsGood fs0 "cap" "img.png").2.1.map stepKind
      = [1, 2, 3] :=
  (publish_three_step_order svc0 rsGood fs0 "cap" "img.png").2.1
    (true, some "urn:li:share:123") (by decide)

/-- Claim C2: when the step 1 HTTP status is not an error status (in
particular when it is 2xx) but the body lacks uploadUrl or image (or either
is empty, which Python truthiness also treats as absent), step 1 fails with
the MalformedUploadResponse error, the whole publish aborts with that same
error, only the step 1 request was ever sent, and that error is distinct
from the HTTP-level UploadInitiationFailed error. -/
theorem init_malformed_response_aborts (svc : Service) (rs : Responses)
    (fs : FS) (text_content image_path : String)
    (hstatus : isErrorStatus rs.initResp.status = false)
    (hmal : (pyFalsy rs.initResp.body.uploadUrl
      || pyFalsy rs.initResp.body.image) = true) :
    (initialize_image_upload svc rs).2
      = Except.error (PubError.malformedUploadResponse rs.initResp.text) ∧
    (publish_to_linkedin svc rs fs text_content image_path).2.2
      = Except.error (PubError.malformedUploadResponse rs.initResp.text) ∧
    (publish_to_linkedin svc rs fs text_content image_path).2.1.map stepKind = [1] ∧
    isUploadInitiationHTTP (PubError.malformedUploadResponse rs.initResp.text)
      = false := by
  refine ⟨?_, ?_, ?_, rfl⟩ <;>
  simp_all [publish_to_linkedin, initialize_image_upload, stepKind]

/-- Claim C2 witness: a 200 response missing uploadUrl aborts the whole
sequence with the malformed-response error after only the step 1 request. -/
theorem init_malformed_response_aborts_witness :
    (publish_to_linkedin svc0 rsMalformed fs0 "cap" "img.png").2.2
      = Except.error (PubError.malformedUploadResponse "malformedbody") ∧
    (publish_to_linkedin svc0 rsMalformed fs0 "cap" "img.png").2.1.map stepKind
      = [1] := by
  have h := init_malformed_response_aborts svc0 rsMalformed fs0 "cap" "img.png"
    (by decide) (by decide)
  exact ⟨h.2.1, h.2.2.1⟩

/-- Claim C3 (code bug): with the console wired to None as
LinkedInPostAutomation does (line 300), a step 3 response with status 200,
which is non-201 but outside the [400, 600) range raise_for_status throws
on, makes create_post_with_image propagate the AttributeError from the
expression self.console.print at line 278: a failure that is not the
PostCreationFailed error and carries neither the original status code nor
the response body.  The same error surfaces from publish_to_linkedin. -/
theorem create_post_200_console_none_loses_status :
    rs200.postResp.status = 200 ∧
    svc0.hasConsole = false ∧
    (create_post_with_image svc0 rs200 "cap" "urn:li:image:1").2
      = Except.error PubError.attributeErrorNoneConsole ∧
    (publish_to_linkedin svc0 rs200 fs0 "cap" "img.png").2.2
      = Except.error PubError.attributeErrorNoneConsole ∧
    isPostCreationFailedErr PubError.attributeErrorNoneConsole = false := by
  refine ⟨rfl, rfl, by decide, by decide, rfl⟩

/-- Claim C5 counterexample: with a missing asset file the step 1 network
request is still sent — publish does not fail before any network call, it
fails at the file read in step 2; and an empty asset file causes no failure
at all: publish succeeds end to end. -/
theorem publish_missing_file_counterexample :
    fsLookup [] "img.png" = none ∧
    (publish_to_linkedin svc0 rsGood [] "cap" "img.png").2.1
      = [Event.initRequest initUploadUrl "urn:li:person:me"] ∧
    (publish_to_linkedin svc0 rsGood [] "cap" "img.png").2.2
      = Except.error (PubError.fileReadFailed "img.png") ∧
    fsLookup fsEmptyFile "img.png" = some [] ∧
    (publish_to_linkedin svc0 rsGood fsEmptyFile "cap" "img.png").2.2
      = Except.ok (true, some "urn:li:share:123") := by
  refine ⟨rfl, by decide, by decide, rfl, by decide⟩

/-- Claim C5 as amended: for an asset path whose file does not exist,
publish fails (no normal return), but only after the step 1 request: the
trace consists of exactly the step 1 request — the failure happens at the
file read in step 2, before the step 2 PUT, and step 3 is never reached.
An empty existing file causes no local failure. -/
theorem publish_missing_file_fails_at_step_two (svc : Service)
    (rs : Responses) (fs : FS) (text_content image_path : String)
    (h : fsLookup fs image_path = none) :
    (∃ e, (publish_to_linkedin svc rs fs text_content image_path).2.2
      = Except.error e) ∧
    (publish_to_linkedin svc rs fs text_content image_path).2.1.map stepKind
      = [1] := by
  by_cases h1 : isErrorStatus rs.initResp.status = true <;>
  by_cases h2 : (pyFalsy rs.initResp.body.uploadUrl
      || pyFalsy rs.initResp.body.image) = true <;>
  simp_all [publish_to_linkedin, initialize_image_upload, upload_image_data,
    stepKind]

/-- Claim C5 amended witness: on an empty disk the run errors and only the
step 1 request is in the trace. -/
theorem publish_missing_file_fails_at_step_two_witness :
    (∃ e, (publish_to_linkedin svc0 rsGood [] "cap" "img.png").2.2
      = Except.error e) ∧
    (publish_to_linkedin svc0 rsGood [] "cap" "img.png").2.1.map stepKind
      = [1] :=
  publish_missing_file_fails_at_step_two svc0 rsGood [] "cap" "img.png"
    (by decide)

/-- Claim C6: each invocation of publish_to_linkedin calls initiate before
anything else — the first request of every trace is the step 1 POST — and
no stale session can be used: the URL of any step 2 PUT in the trace is
exactly the uploadUrl of this invocation response to step 1, the bytes are
exactly this invocation read of the asset file, and the media id of any
step 3 POST is exactly the image urn of this invocation response to
step 1.  publish_to_linkedin holds no state: its result is a function of
its arguments alone, so nothing from a previous invocation can be reused. -/
theorem publish_fresh_session_per_invocation (svc : Service)
    (rs : Responses) (fs : FS) (text_content image_path : String) :
    ((publish_to_linkedin svc rs fs text_content image_path).2.1.head?
      = some (Event.initRequest initUploadUrl svc.user_urn)) ∧
    (∀ u ct d, Event.putRequest u ct d
        ∈ (publish_to_linkedin svc rs fs text_content image_path).2.1 →
      rs.initResp.body.uploadUrl = some u ∧ fsLookup fs image_path = some d) ∧
    (∀ url p, Event.postRequest url p
        ∈ (publish_to_linkedin svc rs fs text_content image_path).2.1 →
      rs.initResp.body.image = some p.mediaId) := by
  by_cases h1 : isErrorStatus rs.initResp.status = true <;>
  by_cases h2 : (pyFalsy rs.initResp.body.uploadUrl
      || pyFalsy rs.initResp.body.image) = true <;>
  rcases hfs : fsLookup fs image_path with _ | d <;>
  by_cases h4 : isErrorStatus rs.putResp.status = true <;>
  simp_all [publish_to_linkedin, initialize_image_upload, upload_image_data,
    create_post_with_image, mkPostPayload, some_getD_of_not_falsy]

/-- Claim C6 witness: on the successful script, the step 2 PUT uses the
uploadUrl of the step 1 response of this same run. -/
theorem publish_fresh_session_per_invocation_witness :
    rsGood.initResp.body.uploadUrl = some "https://up.example/1" ∧
    fsLookup fs0 "img.png" = some [1, 2, 3] :=
  (publish_fresh_session_per_invocation svc0 rsGood fs0 "cap" "img.png").2.1
    "https://up.example/1" "application/octet-stream" [1, 2, 3] (by decide)

/-- Claim C8: the step 3 request built by create_post_with_image is sent to
/rest/posts and its body is exactly the record binding the author urn, the
caption and the asset urn, with visibility PUBLIC, feed distribution
MAIN_FEED, lifecycle state PUBLISHED and isReshareDisabledByAuthor false —
the latter four fixed constants independent of the inputs. -/
theorem create_post_payload_exact (svc : Service) (rs : Responses)
    (text_content image_urn : String) :
    (create_post_with_image svc rs text_content image_urn).1
      = [Event.postRequest postsUrl
          { author := svc.user_urn
            commentary := text_content
            visibility := "PUBLIC"
            feedDistribution := "MAIN_FEED"
            mediaId := image_urn
            lifecycleState := "PUBLISHED"
            isReshareDisabledByAuthor := false }] ∧
    postsUrl = "https://api.linkedin.com/rest/posts" :=
  ⟨rfl, rfl⟩

/-- Claim C7 counterexample: an environment defining every variable
get_env_variable_st checks but leaving LINKEDIN_API_VERSION unset does not
make startup fail: initialization succeeds and the api_version field of the
credential silently defaults to 202504. -/
theorem automation_init_missing_api_version_ok :
    envGet env0 "LINKEDIN_API_VERSION" = none ∧
    automationInit env0 = Except.ok svc0 ∧
    svc0.api_version = "202504" := by
  refine ⟨rfl, by decide, rfl⟩

/-- Claim C7 as amended: if the access token (LINKEDIN_ACCESS_TOKEN) or the
author urn (LINKEDIN_USER_URN) is unset or empty at startup,
LinkedInPostAutomation initialization fails with a ValueError before any
network call; a missing api_version (LINKEDIN_API_VERSION) does not fail —
it defaults to 202504. -/
theorem automation_init_missing_token_or_urn_fails (env : Env)
    (h : pyFalsy (envGet env "LINKEDIN_ACCESS_TOKEN") = true
      ∨ pyFalsy (envGet env "LINKEDIN_USER_URN") = true) :
    ∃ msg, automationInit env = Except.error msg := by
  rcases hA : get_env_variable_st env "OPENAI_API_KEY" with eA | vA
  · exact ⟨eA, by simp [automationInit, hA]⟩
  rcases hB : get_env_variable_st env "SEARCH_API_KEY" with eB | vB
  · exact ⟨eB, by simp [automationInit, hA, hB]⟩
  rcases hC : get_env_variable_st env "SEARCH_ENGINE_ID" with eC | vC
  · exact ⟨eC, by simp [automationInit, hA, hB, hC]⟩
  rcases hD : get_env_variable_st env "LINKEDIN_ACCESS_TOKEN" with eD | vD
  · exact ⟨eD, by simp [automationInit, hA, hB, hC, hD]⟩
  rcases hE : get_env_variable_st env "LINKEDIN_USER_URN" with eE | vE
  · exact ⟨eE, by simp [automationInit, hA, hB, hC, hD, hE]⟩
  exfalso
  rcases h with h | h
  · have hf := get_env_ok_not_falsy hD
    rw [hf] at h
    exact Bool.false_ne_true h
  · have hf := get_env_ok_not_falsy hE
    rw [hf] at h
    exact Bool.false_ne_true h

/-- Claim C7 amended witness: an environment without the LinkedIn access
token makes initialization fail. -/
theorem automation_init_missing_token_or_urn_fails_witness :
    ∃ msg, automationInit envNoToken = Except.error msg :=
  automation_init_missing_token_or_urn_fails envNoToken (by decide)

/-- Claim C9: for every upload URL and readable asset path, upload_image_data
reads the local file but never modifies or deletes it: the filesystem
returned by the operation is exactly the input filesystem, whether the
operation succeeds or fails; and the same holds for the whole publish
sequence. -/
theorem upload_image_data_preserves_fs (svc : Service) (rs : Responses)
    (fs : FS) (upload_url image_path : String) :
    (upload_image_data svc rs fs upload_url image_path).1 = fs ∧
    (∀ text_content : String,
      (publish_to_linkedin svc rs fs text_content image_path).1 = fs) := by
  constructor
  · unfold upload_image_data
    split <;> rfl
  · intro t
    by_cases h1 : isErrorStatus rs.initResp.status = true <;>
    by_cases h2 : (pyFalsy rs.initResp.body.uploadUrl
        || pyFalsy rs.initResp.body.image) = true <;>
    rcases hfs : fsLookup fs image_path with _ | d <;>
    by_cases h4 : isErrorStatus rs.putResp.status = true <;>
    simp_all [publish_to_linkedin, initialize_image_upload, upload_image_data,
      create_post_with_image]

/-- Claim C10: whenever publish_to_linkedin returns normally, the first
component of the returned pair is True: failure is signalled only by a
propagated exception, never by a normal return with a False flag. -/
theorem publish_ok_success_flag_true (svc : Service) (rs : Responses)
    (fs : FS) (text_content image_path : String) (b : Bool)
    (post_id : Option String)
    (h : (publish_to_linkedin svc rs fs text_content image_path).2.2
      = Except.ok (b, post_id)) : b = true := by
  by_cases h1 : isErrorStatus rs.initResp.status = true <;>
  by_cases h2 : (pyFalsy rs.initResp.body.uploadUrl
      || pyFalsy rs.initResp.body.image) = true <;>
  rcases hfs : fsLookup fs image_path with _ | d <;>
  by_cases h4 : isErrorStatus rs.putResp.status = true <;>
  by_cases h5 : rs.postResp.status = 201 <;>
  by_cases h6 : isErrorStatus rs.postResp.status = true <;>
  by_cases h7 : svc.hasConsole = true <;>
  simp_all [publish_to_linkedin, initialize_image_upload, upload_image_data,
    create_post_with_image]

/-- Claim C10 witness: the successful response script yields flag true. -/
theorem publish_ok_success_flag_true_witness :
    (publish_to_linkedin svc0 rsGood fs0 "cap" "img.png").2.2
      = Except.ok (true, some "urn:li:share:123") ∧ true = true :=
  ⟨by decide,
   publish_ok_success_flag_true svc0 rsGood fs0 "cap" "img.png" true
     (some "urn:li:share:123") (by decide)⟩

/-- Claim C4: when step 3 answers 201 with neither an x-linkedin-id nor an
x-restli-id header, create_post_with_image still succeeds and returns the
unknown-identifier sentinel none (Python None), and any normal return of
publish_to_linkedin under that response script carries that sentinel; the
missing identifier is not reported as a failure. -/
theorem create_post_201_no_headers_unknown_id (svc : Service)
    (rs : Responses) (fs : FS) (text_content image_path image_urn : String)
    (h201 : rs.postResp.status = 201)
    (hA : rs.postResp.xLinkedinId = none)
    (hB : rs.postResp.xRestliId = none) :
    (create_post_with_image svc rs text_content image_urn).2
      = Except.ok (true, none) ∧
    (∀ v, (publish_to_linkedin svc rs fs text_content image_path).2.2
      = Except.ok v → v = (true, none)) := by
  constructor
  · simp [create_post_with_image, h201, hA, hB, pyOr]
  · intro v hv
    by_cases h1 : isErrorStatus rs.initResp.status = true <;>
    by_cases h2 : (pyFalsy rs.initResp.body.uploadUrl
        || pyFalsy rs.initResp.body.image) = true <;>
    rcases hfs : fsLookup fs image_path with _ | d <;>
    by_cases h4 : isErrorStatus rs.putResp.status = true <;>
    simp_all [publish_to_linkedin, initialize_image_upload, upload_image_data,
      create_post_with_image, pyOr]

/-- Claim C4 witness: with a 201 and no identifier headers, publish returns
the unknown sentinel. -/
theorem create_post_201_no_headers_unknown_id_witness :
    (create_post_with_image svc0 rsNoId "cap" "urn:li:image:1").2
      = Except.ok (true, none) ∧
    (publish_to_linkedin svc0 rsNoId fs0 "cap" "img.png").2.2
      = Except.ok (true, none) :=
  ⟨(create_post_201_no_headers_unknown_id svc0 rsNoId fs0 "cap" "img.png"
      "urn:li:image:1" (by decide) (by decide) (by decide)).1,
   by decide⟩

end LinkedinAutomation
